import Mathlib

/-!
Shallow embedding of the face-recognition attendance backend (src/index.js).

The backend is a set of Express route handlers over four DynamoDB tables
(Users, AttendanceSessions, Attendance, Timetable), a Rekognition face
collection and an S3 bucket.  Each handler is embedded as a pure Lean
function from the request body, an environment record (clock, random draw,
and the outcomes of the external Rekognition calls, which are oracles from
the handler's point of view) and the store state, to a JSON-shaped response
together with the next store state.

DynamoDB tables are modelled as association lists keyed by the table's hash
key; PutCommand replaces the whole item at the key (last write wins), which
is exactly DynamoDB's put semantics.  JavaScript falsiness of the
string-valued request-body fields is modelled by plain String values with
the empty string falsy (undefined and "" are observationally identical in
every modelled handler); the one Array.isArray check is modelled by an
Option on the list field.
-/

namespace FaceAttendance

/-- Association-list model of a DynamoDB table keyed by its hash key. -/
def Table (α : Type) : Type := List (String × α)

instance (α : Type) [DecidableEq α] : DecidableEq (Table α) := by
  unfold Table; infer_instance

/-- GetCommand: look the item up by key. -/
def getItem {α : Type} (t : Table α) (k : String) : Option α :=
  (t.find? (fun p => p.1 == k)).map (fun p => p.2)

/-- PutCommand: replace the item stored at the key (DynamoDB put semantics). -/
def putItem {α : Type} (t : Table α) (k : String) (v : α) : Table α :=
  (k, v) :: t.filter (fun p => !(p.1 == k))

/-! Model of JavaScript Number.prototype.toString for the non-negative
integers the backend converts (Date.now() and the 2-digit random draw).
The recursion is fuelled so that the definition is structural and hence
kernel-computable; fuel n always suffices because n / 10 < n. -/

/-- Decimal digits of n, least significant first, with explicit fuel. -/
def digitsRevGo : Nat → Nat → List Nat
  | _, 0 => []
  | 0, _+1 => []
  | f+1, n+1 => ((n+1) % 10) :: digitsRevGo f ((n+1) / 10)

/-- Decimal digits of n, least significant first. -/
def natDigitsRev (n : Nat) : List Nat := digitsRevGo n n

/-- Character for one decimal digit. -/
def digitChar (d : Nat) : Char := Char.ofNat (48 + d)

/-- JS String(n) for a natural number. -/
def jsNatToString (n : Nat) : String :=
  if n = 0 then "0" else String.mk ((natDigitsRev n).reverse.map digitChar)

/-- JS s.slice(-k): the last k characters (the whole string when shorter). -/
def sliceLast (k : Nat) (s : String) : String :=
  String.mk (s.data.drop (s.data.length - k))

/-- JS s.padStart(2, 0-char). -/
def padStart2 (s : String) : String :=
  if s.length < 2 then String.mk (List.replicate (2 - s.length) '0') ++ s else s

/-- Identifier synthesis of POST /auth/register (src/index.js lines 183-187):
role-tag digit, last 8 digits of Date.now(), 2 random digits. -/
def genId (role : String) (nowMs rand : Nat) : String :=
  (if role = "student" then "1" else "2")
    ++ sliceLast 8 (jsNatToString nowMs) ++ padStart2 (jsNatToString rand)

/-- Truthiness of a JS string value: only the empty string is falsy. -/
def truthyS (s : String) : Bool := !(s == "")

/-- One candidate of a SearchFacesByImage response; only the external image
id is inspected by the handlers (the floating-point Similarity score is
produced and thresholded by the external service and never compared by the
backend, so it is not modelled). -/
structure FaceMatch where
  externalImageId : String
deriving DecidableEq

/-- Outcome of a SearchFacesByImage call: a (possibly empty) list of match candidates
already filtered by the service at the requested threshold, or a thrown
error with its name and message. An undefined FaceMatches array is modelled
as the empty list. -/
inductive SearchOutcome where
  | ok (ms : List FaceMatch)
  | err (name message : String)
deriving DecidableEq

/-- One face indexed in the Rekognition collection: its service-assigned
face id (none models a missing or null id) and its external image id. -/
structure CollFace where
  faceId : Option String
  externalImageId : String
deriving DecidableEq

/-- Item of the Users table; optional fields model attributes that may be
absent on the schemaless item. -/
structure UserItem where
  userId : String
  name : String
  email : String
  role : String
  approved : Bool
  faceImage : Option String := none
  password : Option String := none
  faceId : Option String := none
  photoKey : Option String := none
  isActive : Option Bool := none
  approvedAt : Option String := none
deriving DecidableEq

/-- Item of the AttendanceSessions table, as written by generate-qr. -/
structure SessionItem where
  sessionId : String
  classId : String
  teacherId : String
  expireAt : Nat
deriving DecidableEq

/-- Item of the Attendance table; method, markedBy and cameraUsed are only
written by some of the three marking entry points. -/
structure AttendanceItem where
  attendanceId : String
  userId : String
  sessionId : String
  timestamp : String
  date : String
  status : String
  method : Option String := none
  markedBy : Option String := none
  cameraUsed : Option String := none
deriving DecidableEq

/-- Item of the Timetable table; all non-key attributes optional since an
UpdateCommand on an absent key creates a partial item. -/
structure TimetableItem where
  timetableId : String
  classId : Option String := none
  className : Option String := none
  teacherId : Option String := none
  teacherName : Option String := none
  dayOfWeek : Option String := none
  startTime : Option String := none
  endTime : Option String := none
  subject : Option String := none
  room : Option String := none
  createdAt : Option String := none
  isActive : Option Bool := none
  assignedAt : Option String := none
deriving DecidableEq

/-- Full store state: the four DynamoDB tables, the Rekognition collection
and the S3 bucket (keyed blobs). -/
structure St where
  users : Table UserItem := []
  sessions : Table SessionItem := []
  attendance : Table AttendanceItem := []
  timetable : Table TimetableItem := []
  collection : List CollFace := []
  s3 : Table String := []
deriving DecidableEq

/-- JSON response shape: HTTP status (res.json alone means 200) plus the
optional payload fields the modelled handlers emit. -/
structure Resp where
  status : Nat := 200
  success : Bool
  error : Option String := none
  code : Option String := none
  message : Option String := none
  userId : Option String := none
  role : Option String := none
  faceId : Option String := none
  classId : Option String := none
  sessionId : Option String := none
  presentCount : Option Nat := none
deriving DecidableEq

/-- Environment of POST /auth/register: outcome of the duplicate-face
search, whether the follow-up GetCommand for the matched owner throws,
Date.now() and the Math.random() draw scaled to 0..99. -/
structure RegisterEnv where
  search : SearchOutcome
  userLookupFails : Bool := false
  nowMs : Nat
  rand : Nat
deriving DecidableEq

/-- Handler of POST /auth/register (src/index.js lines 134-196). -/
def register (name email role imageBase64 : String) (env : RegisterEnv)
    (s : St) : Resp × St :=
  if truthyS name && truthyS email && truthyS role && truthyS imageBase64 then
    match env.search with
    | .ok (m :: _) =>
      if env.userLookupFails then
        ({ status := 409, success := false,
           error := some "This face is already registered to another user. Each person can only register once.",
           code := some "DUPLICATE_FACE" }, s)
      else
        let owner :=
          match getItem s.users m.externalImageId with
          | some u => if u.name == "" then m.externalImageId else u.name
          | none => m.externalImageId
        ({ status := 409, success := false,
           error := some ("This face is already registered to another user: "
             ++ owner ++ ". Each person can only register once."),
           code := some "DUPLICATE_FACE" }, s)
    | _ =>
      let tempId := genId role env.nowMs env.rand
      let item : UserItem :=
        { userId := tempId, name := name, email := email, role := role,
          approved := false, faceImage := some imageBase64 }
      ({ success := true, message := some "Registration submitted",
         userId := some tempId },
       { s with users := putItem s.users tempId item })
  else
    ({ status := 400, success := false, error := some "Missing fields" }, s)

/-- Environment of POST /admin/approve: the face id assigned by IndexFaces
(none models a missing FaceRecords entry, stored as null) and the current
ISO timestamp. -/
structure ApproveEnv where
  newFaceId : Option String
  nowIso : String
deriving DecidableEq

/-- Handler of POST /admin/approve (src/index.js lines 210-257): uploads the
pending photo to S3, indexes the face in the collection tagged with the
user id, and updates the user item; there is no guard on prior approval. -/
def approve (userId password : String) (env : ApproveEnv) (s : St) :
    Resp × St :=
  if truthyS userId && truthyS password then
    match getItem s.users userId with
    | none => ({ status := 404, success := false,
                 error := some "User not found" }, s)
    | some user =>
      match user.faceImage with
      | none => ({ status := 400, success := false,
                   error := some "No face image for user" }, s)
      | some img =>
        if img == "" then
          ({ status := 400, success := false,
             error := some "No face image for user" }, s)
        else
          let key := userId ++ ".jpg"
          let user2 := { user with
            approved := true
            password := some password
            faceId := env.newFaceId
            photoKey := some key
            isActive := some true
            approvedAt := some env.nowIso }
          let coll2 := s.collection
            ++ [{ faceId := env.newFaceId, externalImageId := userId }]
          ({ success := true, message := some "User approved and face indexed",
             faceId := env.newFaceId },
           { s with
              s3 := putItem s.s3 key img
              collection := coll2
              users := putItem s.users userId user2 })
  else
    ({ status := 400, success := false,
       error := some "userId and password required" }, s)

/-- Handler of POST /auth/login (src/index.js lines 290-305). -/
def login (userId password role : String) (s : St) : Resp :=
  if truthyS userId && truthyS password && truthyS role then
    match getItem s.users userId with
    | none => { status := 404, success := false, error := some "User not found" }
    | some user =>
      if !user.approved then
        { status := 401, success := false, error := some "User not approved" }
      else if user.password ≠ some password then
        { status := 401, success := false, error := some "Incorrect password" }
      else
        { success := true, message := some "Login successful",
          userId := some userId, role := some role }
  else
    { status := 400, success := false, error := some "Missing fields" }

/-- Handler of POST /auth/verify-face (src/index.js lines 308-332). -/
def verifyFace (userId imageBase64 : String) (search : SearchOutcome)
    (s : St) : Resp :=
  if truthyS userId && truthyS imageBase64 then
    match getItem s.users userId with
    | none => { status := 404, success := false, error := some "User not found" }
    | some _ =>
      match search with
      | .err _ msg => { status := 500, success := false, error := some msg }
      | .ok ms =>
        match ms.find? (fun f => f.externalImageId == userId) with
        | some _ => { success := true, message := some "Face matched" }
        | none => { success := false, message := some "Face not matched" }
  else
    { status := 400, success := false, error := some "Missing fields" }

/-- Clock environment shared by the two session-checked marking paths. -/
structure MarkEnv where
  nowSec : Nat
  nowIso : String
  today : String
deriving DecidableEq

/-- Handler of POST /attendance/mark (src/index.js lines 493-514): the
face-verified marking path. Note the written item has no method field. -/
def attendanceMark (userId sessionId : String) (env : MarkEnv) (s : St) :
    Resp × St :=
  if truthyS userId && truthyS sessionId then
    match getItem s.sessions sessionId with
    | none => ({ success := false, error := some "Invalid session" }, s)
    | some session =>
      if session.expireAt < env.nowSec then
        ({ success := false, error := some "Session expired" }, s)
      else
        let item : AttendanceItem :=
          { attendanceId := userId ++ "-" ++ sessionId, userId := userId,
            sessionId := sessionId, timestamp := env.nowIso, date := env.today,
            status := "Present" }
        let att := putItem s.attendance (userId ++ "-" ++ sessionId) item
        ({ success := true, message := some "Attendance marked" },
         { s with attendance := att })
  else
    ({ status := 400, success := false, error := some "Missing fields" }, s)

/-- Handler of POST /student/scan-qr (src/index.js lines 916-967); the
scanned qrData is the session id. -/
def scanQr (userId qrData cameraType : String) (env : MarkEnv) (s : St) :
    Resp × St :=
  if truthyS userId && truthyS qrData then
    match getItem s.sessions qrData with
    | none => ({ success := false, error := some "Invalid QR code" }, s)
    | some session =>
      if session.expireAt < env.nowSec then
        ({ success := false, error := some "QR code has expired" }, s)
      else
        let item : AttendanceItem :=
          { attendanceId := userId ++ "-" ++ qrData, userId := userId,
            sessionId := qrData, timestamp := env.nowIso, date := env.today,
            status := "Present", method := some "qr_scan",
            cameraUsed := some (if cameraType == "" then "unknown" else cameraType) }
        let att := putItem s.attendance (userId ++ "-" ++ qrData) item
        ({ success := true,
           message := some "Attendance marked successfully via QR scan",
           classId := some session.classId },
         { s with attendance := att })
  else
    ({ status := 400, success := false, error := some "Missing fields" }, s)

/-- Clock environment of POST /teacher/submit-attendance. -/
structure SubmitEnv where
  nowMs : Nat
  nowIso : String
  today : String
deriving DecidableEq

/-- Session id used by manual submission: the supplied one when truthy, else
a synthesized MANUAL- id (src/index.js line 880). -/
def finalSessionId (sessionId classId : String) (nowMs : Nat) : String :=
  if sessionId == "" then "MANUAL-" ++ classId ++ "-" ++ jsNatToString nowMs
  else sessionId

/-- Attendance item written for one student by manual submission. -/
def manualItem (studentId fsid teacherId : String) (env : SubmitEnv) :
    AttendanceItem :=
  { attendanceId := studentId ++ "-" ++ fsid, userId := studentId,
    sessionId := fsid, timestamp := env.nowIso, date := env.today,
    status := "Present", markedBy := some teacherId, method := some "manual" }

/-- Handler of POST /teacher/submit-attendance (src/index.js lines
870-913). The concurrent per-student puts go to per-student keys; they are
modelled as a left fold over the student list. -/
def submitAttendance (teacherId classId : String)
    (presentStudents : Option (List String)) (sessionId : String)
    (env : SubmitEnv) (s : St) : Resp × St :=
  match presentStudents with
  | some students =>
    if truthyS teacherId && truthyS classId then
      let fsid := finalSessionId sessionId classId env.nowMs
      let att := students.foldl
        (fun t stu => putItem t (stu ++ "-" ++ fsid)
          (manualItem stu fsid teacherId env)) s.attendance
      ({ success := true,
         message := some ("Attendance marked for "
           ++ jsNatToString students.length ++ " students"),
         presentCount := some students.length, sessionId := some fsid },
       { s with attendance := att })
    else
      ({ status := 400, success := false,
         error := some "Missing required fields" }, s)
  | none =>
    ({ status := 400, success := false,
       error := some "Missing required fields" }, s)

/-- Clock environment of POST /admin/assign-teacher. -/
structure AssignEnv where
  nowIso : String
deriving DecidableEq

/-- Handler of POST /admin/assign-teacher (src/index.js lines 623-656). -/
def assignTeacher (timetableId teacherId teacherName : String)
    (env : AssignEnv) (s : St) : Resp × St :=
  if truthyS timetableId && truthyS teacherId then
    match getItem s.users teacherId with
    | none => ({ status := 404, success := false,
                 error := some "Teacher not found or invalid role" }, s)
    | some teacher =>
      if teacher.role ≠ "teacher" then
        ({ status := 404, success := false,
           error := some "Teacher not found or invalid role" }, s)
      else
        let tname := if teacherName == "" then teacher.name else teacherName
        let base := (getItem s.timetable timetableId).getD
          { timetableId := timetableId }
        let entry := { base with
          teacherId := some teacherId
          teacherName := some tname
          assignedAt := some env.nowIso }
        ({ success := true,
           message := some ("Teacher " ++ tname
             ++ " assigned to class successfully") },
         { s with timetable := putItem s.timetable timetableId entry })
  else
    ({ status := 400, success := false,
       error := some "Timetable ID and Teacher ID are required" }, s)

/-- Does the duplicate-face search report at least one match? -/
def searchFoundMatch : SearchOutcome → Bool
  | .ok (_ :: _) => true
  | _ => false

/-- Concrete session used by the evaluation witnesses. -/
def demoSession : SessionItem :=
  { sessionId := "S1", classId := "C1", teacherId := "T9", expireAt := 100 }

/-- Concrete store used by the evaluation witnesses. -/
def demoSt : St := { sessions := [("S1", demoSession)] }

/-- Clock at 50 unix seconds, before demoSession expires. -/
def demoMark1 : MarkEnv := { nowSec := 50, nowIso := "T1", today := "D" }

/-- Clock at 60 unix seconds, before demoSession expires. -/
def demoMark2 : MarkEnv := { nowSec := 60, nowIso := "T2", today := "D" }

/-- Clock for a manual submission witness. -/
def demoSubmit : SubmitEnv :=
  { nowMs := 1760000000000, nowIso := "T1", today := "D" }

theorem getItem_putItem_self {α : Type} (t : Table α) (k : String) (v : α) :
    getItem (putItem t k v) k = some v := by
  simp [getItem, putItem, List.find?]

theorem find?_filter_other {α : Type} (k k2 : String) (h : k ≠ k2)
    (t : List (String × α)) :
    List.find? (fun p => p.1 == k2) (t.filter (fun p => !(p.1 == k)))
      = List.find? (fun p => p.1 == k2) t := by
  induction t with
  | nil => rfl
  | cons p t ih =>
    have hk : ¬ k = k2 := h
    have hk2 : ¬ k2 = k := fun e => h e.symm
    by_cases hp : p.1 = k
    · have hp2 : ¬ p.1 = k2 := by rw [hp]; exact h
      simp [List.filter_cons, List.find?_cons, hp, hp2, hk, hk2, ih]
    · by_cases hp2 : p.1 = k2
      · simp [List.filter_cons, List.find?_cons, hp, hp2, hk, hk2]
      · simp [List.filter_cons, List.find?_cons, hp, hp2, ih]

theorem getItem_putItem_ne {α : Type} (t : Table α) (k k2 : String) (v : α)
    (h : k ≠ k2) : getItem (putItem t k v) k2 = getItem t k2 := by
  simp only [getItem, putItem]
  rw [List.find?_cons_of_neg _ (by simp [h]), find?_filter_other k k2 h]

theorem putItem_putItem {α : Type} (t : Table α) (k : String) (v w : α) :
    putItem (putItem t k v) k w = putItem t k w := by
  simp [putItem, List.filter_filter]

theorem digitsRevGo_lt_ten (f : Nat) : ∀ (n d : Nat), d ∈ digitsRevGo f n → d < 10 := by
  induction f with
  | zero => intro n d hd; cases n <;> simp [digitsRevGo] at hd
  | succ f ih =>
    intro n d hd
    cases n with
    | zero => simp [digitsRevGo] at hd
    | succ m =>
      simp only [digitsRevGo, List.mem_cons] at hd
      rcases hd with h | h
      · subst h; exact Nat.mod_lt _ (by decide)
      · exact ih _ _ h

theorem digitsRevGo_len_ge (k : Nat) : ∀ (f n : Nat), n ≤ f → 10 ^ k ≤ n →
    k + 1 ≤ (digitsRevGo f n).length := by
  induction k with
  | zero =>
    intro f n hf hn
    simp only [pow_zero] at hn
    cases n with
    | zero => omega
    | succ m =>
      cases f with
      | zero => omega
      | succ f2 => simp [digitsRevGo]
  | succ k ih =>
    intro f n hf hn
    have h10 : (10:Nat) ^ (k+1) = 10 ^ k * 10 := by ring
    cases n with
    | zero => exfalso; have := Nat.pos_pow_of_pos (k+1) (by decide : 0 < 10); omega
    | succ m =>
      cases f with
      | zero => omega
      | succ f2 =>
        have hdiv : 10 ^ k ≤ (m+1) / 10 := by
          rw [Nat.le_div_iff_mul_le (by decide : 0 < 10)]
          omega
        have hfle : (m+1) / 10 ≤ f2 := by
          have := Nat.div_lt_self (Nat.succ_pos m) (by decide : 1 < 10)
          omega
        have := ih f2 ((m+1) / 10) hfle hdiv
        simp only [digitsRevGo, List.length_cons]
        omega

theorem digitsRevGo_len_le : ∀ (f k n : Nat), n < 10 ^ k →
    (digitsRevGo f n).length ≤ k := by
  intro f
  induction f with
  | zero => intro k n _; cases n <;> simp [digitsRevGo]
  | succ f ih =>
    intro k n hn
    cases n with
    | zero => simp [digitsRevGo]
    | succ m =>
      cases k with
      | zero => simp at hn
      | succ k =>
        have hdiv : (m+1) / 10 < 10 ^ k := by
          rw [Nat.div_lt_iff_lt_mul (by decide : 0 < 10)]
          have h10 : (10:Nat) ^ (k+1) = 10 ^ k * 10 := by ring
          omega
        have := ih k ((m+1) / 10) hdiv
        simp only [digitsRevGo, List.length_cons]
        omega

theorem digitChar_isDigit (d : Nat) (h : d < 10) : (digitChar d).isDigit = true := by
  interval_cases d <;> decide

theorem jsNatToString_chars_digit (n : Nat) (c : Char)
    (hc : c ∈ (jsNatToString n).data) : c.isDigit = true := by
  by_cases hn : n = 0
  · subst hn; simp only [jsNatToString, if_pos] at hc
    simp at hc; subst hc; decide
  · simp only [jsNatToString, if_neg hn, String.mk] at hc
    rw [List.mem_map] at hc
    obtain ⟨d, hd, hdc⟩ := hc
    rw [List.mem_reverse] at hd
    subst hdc
    exact digitChar_isDigit d (digitsRevGo_lt_ten n n d hd)

theorem jsNatToString_len_ge (k n : Nat) (h : 10 ^ k ≤ n) :
    k + 1 ≤ (jsNatToString n).length := by
  have hn : n ≠ 0 := by
    have := Nat.pos_pow_of_pos k (by decide : 0 < 10); omega
  simp only [jsNatToString, if_neg hn, String.mk, String.length]
  simp only [List.length_map, List.length_reverse]
  exact digitsRevGo_len_ge k n n (le_refl n) h

theorem jsNatToString_len_le (k n : Nat) (h : n < 10 ^ k) (hk : 1 ≤ k) :
    (jsNatToString n).length ≤ k := by
  by_cases hn : n = 0
  · subst hn
    have h0 : (jsNatToString 0).length = 1 := rfl
    omega
  · simp only [jsNatToString, if_neg hn, String.mk, String.length]
    simp only [List.length_map, List.length_reverse]
    exact digitsRevGo_len_le n k n h

theorem sliceLast_length (k : Nat) (s : String) (h : k ≤ s.length) :
    (sliceLast k s).length = k := by
  simp only [sliceLast, String.mk, String.length, List.length_drop] at h ⊢
  omega

theorem sliceLast_chars (k : Nat) (s : String) (c : Char)
    (hc : c ∈ (sliceLast k s).data) : c ∈ s.data := by
  simp only [sliceLast, String.mk] at hc
  exact List.mem_of_mem_drop hc

theorem padStart2_length (s : String) (h1 : 1 ≤ s.length) :
    (padStart2 s).length = max 2 s.length := by
  simp only [padStart2]
  by_cases h : s.length < 2
  · rw [if_pos h]
    have hlen : (String.mk (List.replicate (2 - s.length) '0') ++ s).length
        = (List.replicate (2 - s.length) '0' ++ s.data).length := rfl
    rw [hlen, List.length_append, List.length_replicate]
    have hs : s.length = s.data.length := rfl
    omega
  · rw [if_neg h]; omega

theorem padStart2_chars (s : String) (c : Char)
    (hc : c ∈ (padStart2 s).data) : c = '0' ∨ c ∈ s.data := by
  simp only [padStart2] at hc
  by_cases h : s.length < 2
  · rw [if_pos h] at hc
    rw [show (String.mk (List.replicate (2 - s.length) '0') ++ s).data
        = List.replicate (2 - s.length) '0' ++ s.data from rfl] at hc
    rw [List.mem_append] at hc
    rcases hc with hc | hc
    · exact Or.inl (List.eq_of_mem_replicate hc)
    · exact Or.inr hc
  · rw [if_neg h] at hc; exact Or.inr hc

/-- C1: when the duplicate-face search over the collection returns at least
one match (the service already applies the 80 threshold), register returns
success=false with code DUPLICATE_FACE and HTTP 409, and the store — in
particular the Users table — is unchanged. -/
theorem register_duplicate_face_rejects (name email role img : String)
    (hn : truthyS name = true) (he : truthyS email = true)
    (hr : truthyS role = true) (hi : truthyS img = true)
    (env : RegisterEnv) (m : FaceMatch) (rest : List FaceMatch)
    (hs : env.search = .ok (m :: rest)) (s : St) :
    (register name email role img env s).1.status = 409 ∧
    (register name email role img env s).1.success = false ∧
    (register name email role img env s).1.code = some "DUPLICATE_FACE" ∧
    (register name email role img env s).2 = s := by
  simp only [register, hn, he, hr, hi, hs, Bool.and_self, if_true]
  cases hL : env.userLookupFails <;> simp [hL]

theorem register_duplicate_face_rejects_witness :
    (register "Alice" "a@x.com" "student" "IMG"
        { search := .ok [{ externalImageId := "U0" }],
          nowMs := 1760000000000, rand := 7 } {}).1.status = 409 ∧
    (register "Alice" "a@x.com" "student" "IMG"
        { search := .ok [{ externalImageId := "U0" }],
          nowMs := 1760000000000, rand := 7 } {}).1.success = false ∧
    (register "Alice" "a@x.com" "student" "IMG"
        { search := .ok [{ externalImageId := "U0" }],
          nowMs := 1760000000000, rand := 7 } {}).1.code
      = some "DUPLICATE_FACE" ∧
    (register "Alice" "a@x.com" "student" "IMG"
        { search := .ok [{ externalImageId := "U0" }],
          nowMs := 1760000000000, rand := 7 } {}).2 = {} :=
  register_duplicate_face_rejects "Alice" "a@x.com" "student" "IMG"
    (by decide) (by decide) (by decide) (by decide) _
    { externalImageId := "U0" } [] rfl {}

/-- C3: on both session-checked marking paths (face mark and QR scan), when
the session exists but the current unix time strictly exceeds its expireAt,
the handler returns success=false with the expiry message and the whole
store, in particular the Attendance table, is unchanged. -/
theorem mark_expired_rejects_no_write (u sid cam : String)
    (hu : truthyS u = true) (hs : truthyS sid = true)
    (env : MarkEnv) (s : St) (sess : SessionItem)
    (hget : getItem s.sessions sid = some sess)
    (hexp : sess.expireAt < env.nowSec) :
    attendanceMark u sid env s
      = ({ success := false, error := some "Session expired" }, s) ∧
    scanQr u sid cam env s
      = ({ success := false, error := some "QR code has expired" }, s) := by
  constructor
  · simp [attendanceMark, hu, hs, hget, hexp]
  · simp [scanQr, hu, hs, hget, hexp]

theorem mark_expired_rejects_no_write_witness :
    attendanceMark "U1" "S1" { nowSec := 101, nowIso := "TS", today := "D" }
        { sessions := [("S1", { sessionId := "S1", classId := "C1",
                                teacherId := "T1", expireAt := 100 })] }
      = ({ success := false, error := some "Session expired" },
         { sessions := [("S1", { sessionId := "S1", classId := "C1",
                                 teacherId := "T1", expireAt := 100 })] }) ∧
    scanQr "U1" "S1" "back" { nowSec := 101, nowIso := "TS", today := "D" }
        { sessions := [("S1", { sessionId := "S1", classId := "C1",
                                teacherId := "T1", expireAt := 100 })] }
      = ({ success := false, error := some "QR code has expired" },
         { sessions := [("S1", { sessionId := "S1", classId := "C1",
                                 teacherId := "T1", expireAt := 100 })] }) :=
  mark_expired_rejects_no_write "U1" "S1" "back" (by decide) (by decide)
    { nowSec := 101, nowIso := "TS", today := "D" } _
    { sessionId := "S1", classId := "C1", teacherId := "T1", expireAt := 100 }
    (by decide) (by decide)

/-- C8: when the assign-teacher target user does not exist or does not have
role teacher, the handler fails with HTTP 404 and the whole store — in
particular the Timetable table — is unchanged. -/
theorem assignTeacher_invalid_teacher_404 (ttid tid tname : String)
    (h1 : truthyS ttid = true) (h2 : truthyS tid = true)
    (env : AssignEnv) (s : St)
    (hbad : ∀ u, getItem s.users tid = some u → u.role ≠ "teacher") :
    assignTeacher ttid tid tname env s
      = ({ status := 404, success := false,
           error := some "Teacher not found or invalid role" }, s) := by
  simp only [assignTeacher, h1, h2, Bool.and_self, if_true]
  cases hget : getItem s.users tid with
  | none => rfl
  | some u => simp [hbad u hget]

theorem assignTeacher_invalid_teacher_404_witness :
    assignTeacher "TT1" "U9" "" { nowIso := "TS" }
        { users := [("U9", { userId := "U9", name := "Bob", email := "b@x.com",
                             role := "student", approved := true })],
          timetable := [("TT1", { timetableId := "TT1" })] }
      = ({ status := 404, success := false,
           error := some "Teacher not found or invalid role" },
         { users := [("U9", { userId := "U9", name := "Bob", email := "b@x.com",
                              role := "student", approved := true })],
           timetable := [("TT1", { timetableId := "TT1" })] }) :=
  assignTeacher_invalid_teacher_404 "TT1" "U9" "" (by decide) (by decide)
    { nowIso := "TS" } _ (by decide)

/-- C9: login never consults the stored role: for any approved user whose
stored password equals the supplied one, login succeeds and echoes back the
caller-supplied role string, whatever it is (the stored role is
unconstrained here, so the result holds even when the two differ). -/
theorem login_echoes_caller_role (uid pw r : String)
    (hu : truthyS uid = true) (hp : truthyS pw = true)
    (hr : truthyS r = true) (s : St) (u : UserItem)
    (hget : getItem s.users uid = some u) (happ : u.approved = true)
    (hpw : u.password = some pw) :
    login uid pw r s
      = { success := true, message := some "Login successful",
          userId := some uid, role := some r } := by
  simp [login, hu, hp, hr, hget, happ, hpw]

theorem login_echoes_caller_role_witness :
    login "U1" "pw" "admin"
        { users := [("U1", { userId := "U1", name := "Ann", email := "a@x.com",
                             role := "student", approved := true,
                             password := some "pw" })] }
      = { success := true, message := some "Login successful",
          userId := some "U1", role := some "admin" } :=
  login_echoes_caller_role "U1" "pw" "admin" (by decide) (by decide)
    (by decide) _
    { userId := "U1", name := "Ann", email := "a@x.com", role := "student",
      approved := true, password := some "pw" }
    (by decide) (by decide) (by decide)

/-- C5: approve performs no guard on prior approval state. For any existing
user with a stored non-empty face image — the approved flag is left
completely unconstrained — approve succeeds, and a second approve on the
resulting state succeeds again, leaving two index entries for that user id
in the face collection. -/
theorem approve_no_prior_approval_guard (uid pw1 pw2 img : String)
    (htu : truthyS uid = true) (hp1 : truthyS pw1 = true)
    (hp2 : truthyS pw2 = true) (env1 env2 : ApproveEnv) (s : St)
    (u : UserItem) (hget : getItem s.users uid = some u)
    (himg : u.faceImage = some img) (hne : img ≠ "") :
    (approve uid pw1 env1 s).1.success = true ∧
    (approve uid pw2 env2 (approve uid pw1 env1 s).2).1.success = true ∧
    (approve uid pw2 env2 (approve uid pw1 env1 s).2).2.collection
      = s.collection
        ++ [{ faceId := env1.newFaceId, externalImageId := uid },
            { faceId := env2.newFaceId, externalImageId := uid }] := by
  have hne2 : (img == "") = false := by simp [hne]
  simp only [approve, htu, hp1, hp2, Bool.and_self, if_true, hget, himg,
    hne2, Bool.false_eq_true, if_false]
  simp [getItem_putItem_self, himg, hne2]

theorem approve_no_prior_approval_guard_witness :
    (approve "U1" "pw1" { newFaceId := some "F1", nowIso := "T1" }
        { users := [("U1", { userId := "U1", name := "Ann", email := "a@x.com",
                             role := "student", approved := false,
                             faceImage := some "IMG" })] }).1.success = true ∧
    (approve "U1" "pw2" { newFaceId := some "F2", nowIso := "T2" }
        (approve "U1" "pw1" { newFaceId := some "F1", nowIso := "T1" }
          { users := [("U1", { userId := "U1", name := "Ann",
                               email := "a@x.com", role := "student",
                               approved := false,
                               faceImage := some "IMG" })] }).2).1.success
      = true ∧
    (approve "U1" "pw2" { newFaceId := some "F2", nowIso := "T2" }
        (approve "U1" "pw1" { newFaceId := some "F1", nowIso := "T1" }
          { users := [("U1", { userId := "U1", name := "Ann",
                               email := "a@x.com", role := "student",
                               approved := false,
                               faceImage := some "IMG" })] }).2).2.collection
      = [] ++ [{ faceId := some "F1", externalImageId := "U1" },
               { faceId := some "F2", externalImageId := "U1" }] :=
  approve_no_prior_approval_guard "U1" "pw1" "pw2" "IMG" (by decide)
    (by decide) (by decide) { newFaceId := some "F1", nowIso := "T1" }
    { newFaceId := some "F2", nowIso := "T2" } _
    { userId := "U1", name := "Ann", email := "a@x.com", role := "student",
      approved := false, faceImage := some "IMG" }
    (by decide) (by decide) (by decide)

/-- C6: for an existing user, verifyFace succeeds exactly when some
candidate returned by the face search carries the user's own id as external
reference; when every candidate refers to a different user the result is
the plain success=false "Face not matched" response (HTTP 200), not an
error. -/
theorem verifyFace_self_match_only (uid img : String)
    (hu : truthyS uid = true) (hi : truthyS img = true)
    (ms : List FaceMatch) (s : St) (u : UserItem)
    (hget : getItem s.users uid = some u) :
    ((verifyFace uid img (.ok ms) s).success = true
      ↔ ∃ f ∈ ms, f.externalImageId = uid) ∧
    ((∀ f ∈ ms, f.externalImageId ≠ uid) →
      verifyFace uid img (.ok ms) s
        = { success := false, message := some "Face not matched" }) := by
  simp only [verifyFace, hu, hi, Bool.and_self, if_true, hget]
  cases hf : ms.find? (fun f => f.externalImageId == uid) with
  | some f =>
    have hmem : f ∈ ms := List.mem_of_find?_eq_some hf
    have hp := List.find?_some hf
    have hpe : f.externalImageId = uid := by simpa using hp
    constructor
    · exact ⟨fun _ => ⟨f, hmem, hpe⟩, fun _ => rfl⟩
    · intro hall; exact absurd hpe (hall f hmem)
  | none =>
    have hnone := List.find?_eq_none.mp hf
    constructor
    · constructor
      · intro hfalse; cases hfalse
      · rintro ⟨f, hfm, hfe⟩
        exact absurd (by simpa using hfe) (hnone f hfm)
    · intro _; rfl

theorem verifyFace_self_match_only_witness :
    ((verifyFace "U1" "IMG"
        (.ok [{ externalImageId := "U2" }])
        { users := [("U1", { userId := "U1", name := "Ann",
                             email := "a@x.com", role := "student",
                             approved := true })] }).success = true
      ↔ ∃ f ∈ [({ externalImageId := "U2" } : FaceMatch)],
          f.externalImageId = "U1") ∧
    ((∀ f ∈ [({ externalImageId := "U2" } : FaceMatch)],
        f.externalImageId ≠ "U1") →
      verifyFace "U1" "IMG" (.ok [{ externalImageId := "U2" }])
          { users := [("U1", { userId := "U1", name := "Ann",
                               email := "a@x.com", role := "student",
                               approved := true })] }
        = { success := false, message := some "Face not matched" }) :=
  verifyFace_self_match_only "U1" "IMG" (by decide) (by decide)
    [{ externalImageId := "U2" }] _
    { userId := "U1", name := "Ann", email := "a@x.com", role := "student",
      approved := true }
    (by decide)

/-- C2: on each of the three marking entry points the attendance key is the
deterministic composite of user id and session id, so a second mark for the
same (user, session) pair lands on the same key; the put at that key
overwrites, hence marking twice never leaves two rows with distinct
identifiers (shown for double face marking and for a QR scan after a face
mark). -/
theorem attendance_id_deterministic_overwrite (u sid cam tid cid : String)
    (hu : truthyS u = true) (hsid : truthyS sid = true)
    (htid : truthyS tid = true) (hcid : truthyS cid = true)
    (env1 env2 : MarkEnv) (envm : SubmitEnv) (s : St) (sess : SessionItem)
    (hget : getItem s.sessions sid = some sess)
    (h1 : ¬ sess.expireAt < env1.nowSec)
    (h2 : ¬ sess.expireAt < env2.nowSec) :
    (∃ v, (attendanceMark u sid env1 s).2.attendance
        = putItem s.attendance (u ++ "-" ++ sid) v) ∧
    (∃ v, (scanQr u sid cam env1 s).2.attendance
        = putItem s.attendance (u ++ "-" ++ sid) v) ∧
    (∃ v, (submitAttendance tid cid (some [u]) sid envm s).2.attendance
        = putItem s.attendance (u ++ "-" ++ sid) v) ∧
    (∀ (t : Table AttendanceItem) (k : String) (v w : AttendanceItem),
        putItem (putItem t k v) k w = putItem t k w) ∧
    ((attendanceMark u sid env2 (attendanceMark u sid env1 s).2).2.attendance
        = (attendanceMark u sid env2 s).2.attendance) ∧
    ((scanQr u sid cam env2 (attendanceMark u sid env1 s).2).2.attendance
        = (scanQr u sid cam env2 s).2.attendance) := by
  have hsid2 : (sid == "") = false := by
    cases he : sid == "" with
    | false => rfl
    | true => rw [truthyS, he] at hsid; cases hsid
  refine ⟨?_, ?_, ?_, putItem_putItem, ?_, ?_⟩
  · exact ⟨{ attendanceId := u ++ "-" ++ sid, userId := u, sessionId := sid,
             timestamp := env1.nowIso, date := env1.today,
             status := "Present" },
      by simp [attendanceMark, hu, hsid, hget, h1]⟩
  · exact ⟨{ attendanceId := u ++ "-" ++ sid, userId := u, sessionId := sid,
             timestamp := env1.nowIso, date := env1.today,
             status := "Present", method := some "qr_scan",
             cameraUsed := some (if cam == "" then "unknown" else cam) },
      by simp [scanQr, hu, hsid, hget, h1]⟩
  · exact ⟨manualItem u sid tid envm,
      by simp [submitAttendance, htid, hcid, finalSessionId, hsid2]⟩
  · simp [attendanceMark, hu, hsid, hget, h1, h2, putItem_putItem]
  · simp [attendanceMark, scanQr, hu, hsid, hget, h1, h2, putItem_putItem]

theorem attendance_id_deterministic_overwrite_witness :
    (∃ v, (attendanceMark "U1" "S1" demoMark1 demoSt).2.attendance
        = putItem demoSt.attendance ("U1" ++ "-" ++ "S1") v) ∧
    (∃ v, (scanQr "U1" "S1" "back" demoMark1 demoSt).2.attendance
        = putItem demoSt.attendance ("U1" ++ "-" ++ "S1") v) ∧
    (∃ v, (submitAttendance "T9" "C1" (some ["U1"]) "S1" demoSubmit
          demoSt).2.attendance
        = putItem demoSt.attendance ("U1" ++ "-" ++ "S1") v) ∧
    (∀ (t : Table AttendanceItem) (k : String) (v w : AttendanceItem),
        putItem (putItem t k v) k w = putItem t k w) ∧
    ((attendanceMark "U1" "S1" demoMark2
        (attendanceMark "U1" "S1" demoMark1 demoSt).2).2.attendance
      = (attendanceMark "U1" "S1" demoMark2 demoSt).2.attendance) ∧
    ((scanQr "U1" "S1" "back" demoMark2
        (attendanceMark "U1" "S1" demoMark1 demoSt).2).2.attendance
      = (scanQr "U1" "S1" "back" demoMark2 demoSt).2.attendance) :=
  attendance_id_deterministic_overwrite "U1" "S1" "back" "T9" "C1"
    (by decide) (by decide) (by decide) (by decide)
    demoMark1 demoMark2 demoSubmit demoSt demoSession
    (by decide) (by decide) (by decide)

theorem string_append_cancel (a b x : String) (h : a ++ x = b ++ x) :
    a = b := by
  have h2 : a.data ++ x.data = b.data ++ x.data := congrArg String.data h
  have h3 := List.append_cancel_right h2
  cases a; cases b; exact congrArg String.mk (by simpa using h3)

theorem composite_key_inj (a b x : String)
    (h : a ++ "-" ++ x = b ++ "-" ++ x) : a = b :=
  string_append_cancel a b "-" (string_append_cancel (a ++ "-") (b ++ "-") x h)

theorem getItem_foldl_put_pres {α : Type} (key : String → String)
    (item : String → α) (kinj : ∀ a b, key a = key b → a = b) :
    ∀ (l : List String) (t : Table α) (a : String),
      getItem t (key a) = some (item a) →
      getItem (l.foldl (fun t2 x => putItem t2 (key x) (item x)) t) (key a)
        = some (item a) := by
  intro l
  induction l with
  | nil => intro t a h; exact h
  | cons y ys ih =>
    intro t a h
    simp only [List.foldl_cons]
    apply ih
    by_cases hk : key y = key a
    · have hya : y = a := kinj _ _ hk
      subst hya
      exact getItem_putItem_self t (key y) (item y)
    · rw [getItem_putItem_ne t (key y) (key a) (item y) hk]; exact h

theorem getItem_foldl_put {α : Type} (key : String → String)
    (item : String → α) (kinj : ∀ a b, key a = key b → a = b) :
    ∀ (l : List String) (t : Table α) (a : String), a ∈ l →
      getItem (l.foldl (fun t2 x => putItem t2 (key x) (item x)) t) (key a)
        = some (item a) := by
  intro l
  induction l with
  | nil => intro t a h; cases h
  | cons y ys ih =>
    intro t a h
    simp only [List.foldl_cons]
    rcases List.mem_cons.mp h with rfl | h2
    · exact getItem_foldl_put_pres key item kinj ys _ a
        (getItem_putItem_self _ _ _)
    · exact ih _ a h2

/-- C10: manual attendance submission validates nothing beyond its own
fields: for an arbitrary sessionId (possibly empty or naming no stored
session) and arbitrary student ids, it succeeds, writes a Present record
with method manual for every listed student, and its outcome is entirely
independent of the Sessions and Users tables (replacing them changes
nothing but the carried-over tables themselves). -/
theorem submitAttendance_no_session_validation (tid cid : String)
    (ht : truthyS tid = true) (hc : truthyS cid = true)
    (students : List String) (sid : String) (env : SubmitEnv) (s : St) :
    (submitAttendance tid cid (some students) sid env s).1.success = true ∧
    (submitAttendance tid cid (some students) sid env s).1.presentCount
      = some students.length ∧
    (∀ stu ∈ students,
      getItem (submitAttendance tid cid (some students) sid env
            s).2.attendance
          (stu ++ "-" ++ finalSessionId sid cid env.nowMs)
        = some (manualItem stu (finalSessionId sid cid env.nowMs) tid env)) ∧
    (∀ (ss : Table SessionItem) (us : Table UserItem),
      submitAttendance tid cid (some students) sid env
          { s with sessions := ss, users := us }
        = ((submitAttendance tid cid (some students) sid env s).1,
           { (submitAttendance tid cid (some students) sid env s).2 with
              sessions := ss, users := us })) := by
  refine ⟨?_, ?_, ?_, ?_⟩
  · simp [submitAttendance, ht, hc]
  · simp [submitAttendance, ht, hc]
  · intro stu hstu
    simp only [submitAttendance, ht, hc, Bool.and_self, if_true]
    exact getItem_foldl_put
      (fun a => a ++ "-" ++ finalSessionId sid cid env.nowMs)
      (fun a => manualItem a (finalSessionId sid cid env.nowMs) tid env)
      (fun a b hk => composite_key_inj a b _ hk)
      students s.attendance stu hstu
  · intro ss us
    simp [submitAttendance, ht, hc]

theorem submitAttendance_no_session_validation_witness :
    (submitAttendance "T9" "C1" (some ["U1", "U2"]) "GHOST" demoSubmit
        demoSt).1.success = true ∧
    (submitAttendance "T9" "C1" (some ["U1", "U2"]) "GHOST" demoSubmit
        demoSt).1.presentCount = some ["U1", "U2"].length ∧
    (∀ stu ∈ ["U1", "U2"],
      getItem (submitAttendance "T9" "C1" (some ["U1", "U2"]) "GHOST"
            demoSubmit demoSt).2.attendance
          (stu ++ "-" ++ finalSessionId "GHOST" "C1" demoSubmit.nowMs)
        = some (manualItem stu (finalSessionId "GHOST" "C1" demoSubmit.nowMs)
            "T9" demoSubmit)) ∧
    (∀ (ss : Table SessionItem) (us : Table UserItem),
      submitAttendance "T9" "C1" (some ["U1", "U2"]) "GHOST" demoSubmit
          { demoSt with sessions := ss, users := us }
        = ((submitAttendance "T9" "C1" (some ["U1", "U2"]) "GHOST" demoSubmit
             demoSt).1,
           { (submitAttendance "T9" "C1" (some ["U1", "U2"]) "GHOST"
               demoSubmit demoSt).2 with sessions := ss, users := us })) :=
  submitAttendance_no_session_validation "T9" "C1" (by decide) (by decide)
    ["U1", "U2"] "GHOST" demoSubmit demoSt

theorem jsNatToString_len_pos (n : Nat) : 1 ≤ (jsNatToString n).length := by
  by_cases hn : n = 0
  · subst hn; decide
  · have := jsNatToString_len_ge 0 n (by omega)
    omega

theorem genId_data_eq (role : String) (ts rand : Nat) :
    (genId role ts rand).data
      = (if role = "student" then "1" else "2").data
        ++ (sliceLast 8 (jsNatToString ts)).data
        ++ (padStart2 (jsNatToString rand)).data := rfl

theorem genId_length (role : String) (ts rand : Nat) (hts : 10 ^ 7 ≤ ts)
    (hrand : rand < 100) : (genId role ts rand).length = 11 := by
  have hA : (sliceLast 8 (jsNatToString ts)).length = 8 :=
    sliceLast_length 8 _ (by have := jsNatToString_len_ge 7 ts hts; omega)
  have hBlen1 : 1 ≤ (jsNatToString rand).length := jsNatToString_len_pos rand
  have hBlen2 : (jsNatToString rand).length ≤ 2 :=
    jsNatToString_len_le 2 rand (by norm_num; omega) (by omega)
  have hB : (padStart2 (jsNatToString rand)).length = 2 := by
    rw [padStart2_length _ hBlen1]; omega
  have htag : (if role = "student" then "1" else "2").data.length = 1 := by
    by_cases hrole : role = "student" <;> simp [hrole]
  rw [show (genId role ts rand).length = (genId role ts rand).data.length
      from rfl, genId_data_eq, List.length_append, List.length_append]
  have hA2 : (sliceLast 8 (jsNatToString ts)).data.length = 8 := hA
  have hB2 : (padStart2 (jsNatToString rand)).data.length = 2 := hB
  omega

theorem genId_chars (role : String) (ts rand : Nat) (c : Char)
    (hc : c ∈ (genId role ts rand).data) : c.isDigit = true := by
  rw [genId_data_eq] at hc
  rcases List.mem_append.mp hc with hc1 | hcB
  · rcases List.mem_append.mp hc1 with hctag | hcA
    · by_cases hrole : role = "student"
      · rw [if_pos hrole] at hctag
        simp at hctag; subst hctag; decide
      · rw [if_neg hrole] at hctag
        simp at hctag; subst hctag; decide
    · exact jsNatToString_chars_digit ts c (sliceLast_chars 8 _ c hcA)
  · rcases padStart2_chars _ c hcB with h0 | hcr
    · subst h0; decide
    · exact jsNatToString_chars_digit rand c hcr

theorem genId_head_student (role : String) (ts rand : Nat)
    (hrole : role = "student") :
    (genId role ts rand).data.head? = some '1' := by
  subst hrole
  rfl

theorem genId_head_other (role : String) (ts rand : Nat)
    (hrole : role ≠ "student") :
    (genId role ts rand).data.head? = some '2' := by
  unfold genId
  rw [if_neg hrole]
  rfl

/-- C7: a successful registration returns the synthesized identifier
role-tag plus last 8 digits of Date.now() plus 2 random digits, an
11-character all-digit string whose first character is 1 for role student
and 2 for any other role.  The timestamp bound holds for every real
Date.now() value (13 digits) and the random draw is floor(random*100),
hence below 100. -/
theorem register_id_format (name email role img : String)
    (hn : truthyS name = true) (he : truthyS email = true)
    (hr : truthyS role = true) (hi : truthyS img = true)
    (env : RegisterEnv) (s : St)
    (hsearch : searchFoundMatch env.search = false)
    (hts : 10 ^ 7 ≤ env.nowMs) (hrand : env.rand < 100) :
    (register name email role img env s).1.userId
      = some (genId role env.nowMs env.rand) ∧
    (register name email role img env s).1.success = true ∧
    (genId role env.nowMs env.rand).length = 11 ∧
    (∀ c ∈ (genId role env.nowMs env.rand).data, c.isDigit = true) ∧
    (role = "student" →
      (genId role env.nowMs env.rand).data.head? = some '1') ∧
    (role ≠ "student" →
      (genId role env.nowMs env.rand).data.head? = some '2') := by
  have hreg : (register name email role img env s).1.userId
        = some (genId role env.nowMs env.rand)
      ∧ (register name email role img env s).1.success = true := by
    cases hse : env.search with
    | ok ms =>
      cases ms with
      | nil => constructor <;> simp [register, hn, he, hr, hi, hse]
      | cons m rest =>
        rw [hse] at hsearch
        simp [searchFoundMatch] at hsearch
    | err nm msg => constructor <;> simp [register, hn, he, hr, hi, hse]
  exact ⟨hreg.1, hreg.2, genId_length role env.nowMs env.rand hts hrand,
    fun c hc => genId_chars role env.nowMs env.rand c hc,
    fun hrole => genId_head_student role env.nowMs env.rand hrole,
    fun hrole => genId_head_other role env.nowMs env.rand hrole⟩

theorem register_id_format_witness :
    (register "Alice" "a@x.com" "student" "IMG"
        { search := .ok [], nowMs := 1760000012345, rand := 7 } {}).1.userId
      = some (genId "student" 1760000012345 7) ∧
    (register "Alice" "a@x.com" "student" "IMG"
        { search := .ok [], nowMs := 1760000012345, rand := 7 } {}).1.success
      = true ∧
    (genId "student" 1760000012345 7).length = 11 ∧
    (∀ c ∈ (genId "student" 1760000012345 7).data, c.isDigit = true) ∧
    ("student" = "student" →
      (genId "student" 1760000012345 7).data.head? = some '1') ∧
    ("student" ≠ "student" →
      (genId "student" 1760000012345 7).data.head? = some '2') :=
  register_id_format "Alice" "a@x.com" "student" "IMG" (by decide)
    (by decide) (by decide) (by decide)
    { search := .ok [], nowMs := 1760000012345, rand := 7 } {}
    (by decide) (by decide) (by decide)

/-- C4 counterexample: in a concrete store with a valid unexpired session,
the face-verified mark path (POST /attendance/mark) writes its attendance
record with NO method field at all — contradicting the claim that every
record written by the three entry points carries a method value in
the set of qr_scan, manual and face, with face on this path. -/
theorem face_mark_method_counterexample :
    (getItem (attendanceMark "U1" "S1" demoMark1 demoSt).2.attendance
        "U1-S1").map (fun r => r.method) = some none ∧
    some (none : Option String) ≠ some (some "face") := by
  constructor
  · decide
  · decide

/-- C4 amended: the QR-scan path writes method="qr_scan" and the manual
path writes method="manual" for every listed student, but the face-verified
mark path writes its record with no method field (method absent), not
method="face". -/
theorem marking_method_fields (u sid cam tid cid : String)
    (hu : truthyS u = true) (hsid : truthyS sid = true)
    (htid : truthyS tid = true) (hcid : truthyS cid = true)
    (env : MarkEnv) (envm : SubmitEnv) (s : St) (sess : SessionItem)
    (hget : getItem s.sessions sid = some sess)
    (hexp : ¬ sess.expireAt < env.nowSec)
    (students : List String) :
    ((getItem (scanQr u sid cam env s).2.attendance (u ++ "-" ++ sid)).map
        (fun r => r.method) = some (some "qr_scan")) ∧
    (∀ stu ∈ students,
      (getItem (submitAttendance tid cid (some students) sid envm
            s).2.attendance
          (stu ++ "-" ++ finalSessionId sid cid envm.nowMs)).map
        (fun r => r.method) = some (some "manual")) ∧
    ((getItem (attendanceMark u sid env s).2.attendance
        (u ++ "-" ++ sid)).map (fun r => r.method) = some none) := by
  refine ⟨?_, ?_, ?_⟩
  · simp [scanQr, hu, hsid, hget, hexp, getItem_putItem_self]
  · intro stu hstu
    simp only [submitAttendance, htid, hcid, Bool.and_self, if_true]
    rw [getItem_foldl_put
      (fun a => a ++ "-" ++ finalSessionId sid cid envm.nowMs)
      (fun a => manualItem a (finalSessionId sid cid envm.nowMs) tid envm)
      (fun a b hk => composite_key_inj a b _ hk)
      students s.attendance stu hstu]
    rfl
  · simp [attendanceMark, hu, hsid, hget, hexp, getItem_putItem_self]

theorem marking_method_fields_witness :
    ((getItem (scanQr "U1" "S1" "back" demoMark1 demoSt).2.attendance
        ("U1" ++ "-" ++ "S1")).map (fun r => r.method)
      = some (some "qr_scan")) ∧
    (∀ stu ∈ ["U1", "U2"],
      (getItem (submitAttendance "T9" "C1" (some ["U1", "U2"]) "S1"
            demoSubmit demoSt).2.attendance
          (stu ++ "-" ++ finalSessionId "S1" "C1" demoSubmit.nowMs)).map
        (fun r => r.method) = some (some "manual")) ∧
    ((getItem (attendanceMark "U1" "S1" demoMark1 demoSt).2.attendance
        ("U1" ++ "-" ++ "S1")).map (fun r => r.method) = some none) :=
  marking_method_fields "U1" "S1" "back" "T9" "C1" (by decide) (by decide)
    (by decide) (by decide) demoMark1 demoSubmit demoSt demoSession
    (by decide) (by decide) ["U1", "U2"]

end FaceAttendance
